import Mathlib

/-!
Shallow embedding of the Poverty Point agent-based model
(repository `poverty-point-signaling`, package `src/poverty_point`).

Python floating-point arithmetic is modelled as exact real arithmetic
(`ℝ`); Python `int` as `ℤ`; Python lists and insertion-ordered dicts as
Lean `List`s; the NumPy generator as an abstract state type threaded
explicitly through every stochastic call, exactly in the order the
source draws from it.
-/

namespace PovertyPoint

noncomputable section

/-! ### parameters.py -/

/-- Structure `CostParameters` from parameters.py. -/
structure CostParameters where
  C_travel : ℝ
  C_signal : ℝ
  C_opportunity : ℝ

/-- Property `C_total` of `CostParameters`. -/
def CostParameters.C_total (c : CostParameters) : ℝ :=
  c.C_travel + c.C_signal + c.C_opportunity

/-- Structure `VulnerabilityParameters` from parameters.py. -/
structure VulnerabilityParameters where
  alpha_agg : ℝ
  beta_ind : ℝ

/-- Structure `CooperationParameters` from parameters.py. -/
structure CooperationParameters where
  b_coop : ℝ
  n_optimal : ℤ
  c_crowd : ℝ
  B_recip : ℝ
  R_ind : ℝ

/-- Structure `EnvironmentParameters` from parameters.py (the fields consumed by the
core simulation engine; the per-zone productivity tables are consumed only
by the separate environment model below). -/
structure EnvironmentParameters where
  region_size : ℝ
  access_radius : ℝ
  n_aquatic_patches : ℕ
  n_terrestrial_patches : ℕ
  n_mast_patches : ℕ
  n_wetland_patches : ℕ

/-- Structure `PopulationParameters` from parameters.py. -/
structure PopulationParameters where
  n_bands : ℕ
  initial_band_size : ℤ
  birth_rate : ℝ
  death_rate : ℝ
  min_band_size : ℤ
  max_band_size : ℤ

/-- Structure `SimulationParameters` from parameters.py. -/
structure SimulationParameters where
  costs : CostParameters
  vulnerability : VulnerabilityParameters
  cooperation : CooperationParameters
  environment : EnvironmentParameters
  population : PopulationParameters
  duration : ℕ
  burn_in : ℕ
  seed : ℤ
  sigma : ℝ
  epsilon : ℝ

/-- Default values of `CostParameters`. -/
def defaultCosts : CostParameters :=
  { C_travel := 0.12, C_signal := 0.18, C_opportunity := 0.12 }

/-- Default values of `VulnerabilityParameters`. -/
def defaultVulnerability : VulnerabilityParameters :=
  { alpha_agg := 0.40, beta_ind := 0.75 }

/-- Default values of `CooperationParameters`. -/
def defaultCooperation : CooperationParameters :=
  { b_coop := 0.08, n_optimal := 25, c_crowd := 0.015, B_recip := 0.05, R_ind := 1.10 }

/-- Default values of `EnvironmentParameters`. -/
def defaultEnvironment : EnvironmentParameters :=
  { region_size := 500, access_radius := 50, n_aquatic_patches := 10,
    n_terrestrial_patches := 12, n_mast_patches := 8, n_wetland_patches := 5 }

/-- Default values of `PopulationParameters`. -/
def defaultPopulation : PopulationParameters :=
  { n_bands := 50, initial_band_size := 25, birth_rate := 0.03, death_rate := 0.02,
    min_band_size := 5, max_band_size := 50 }

/-- Function `default_parameters(sigma, epsilon, seed)` from parameters.py. -/
def default_parameters (sigma epsilon : ℝ) (seed : ℤ) :
    SimulationParameters :=
  { costs := defaultCosts, vulnerability := defaultVulnerability,
    cooperation := defaultCooperation, environment := defaultEnvironment,
    population := defaultPopulation, duration := 600, burn_in := 100,
    seed := seed, sigma := sigma, epsilon := epsilon }

/-- Function `cooperation_benefit(n, params)` from parameters.py. -/
def cooperation_benefit (n : ℝ) (params : CooperationParameters) : ℝ :=
  if n ≤ 1 then 1
  else
    let benefit := 1 + params.b_coop * Real.log n
    let benefit :=
      if (params.n_optimal : ℝ) < n then
        benefit - params.c_crowd * (n - (params.n_optimal : ℝ)) ^ 2
      else benefit
    max 1 benefit

/-- Function `W_aggregator(sigma, epsilon, n, params)` from parameters.py. -/
def W_aggregator (sigma epsilon n : ℝ) (params : SimulationParameters) : ℝ :=
  let C_total := params.costs.C_total
  let sigma_eff := sigma * (1 - epsilon)
  let survival := 1 - params.vulnerability.alpha_agg * sigma_eff
  let f_n := cooperation_benefit n params.cooperation
  let recip := 1 + params.cooperation.B_recip
  max 0 ((1 - C_total) * survival * f_n * recip)

/-- Function `W_independent(sigma, params)` from parameters.py. -/
def W_independent (sigma : ℝ) (params : SimulationParameters) : ℝ :=
  let R_ind := params.cooperation.R_ind
  let survival := 1 - params.vulnerability.beta_ind * sigma
  max 0 (R_ind * survival)

/-- The "aggregation factor" `A = (1 - C_total) * f(n) * (1 + B_recip)`
computed inside `critical_threshold`. -/
def aggregationFactor (n : ℝ) (params : SimulationParameters) : ℝ :=
  (1 - params.costs.C_total) * cooperation_benefit n params.cooperation *
    (1 + params.cooperation.B_recip)

/-- The "effective alpha" `α_eff = α * (1 - ε)` computed inside
`critical_threshold`. -/
def alphaEff (epsilon : ℝ) (params : SimulationParameters) : ℝ :=
  params.vulnerability.alpha_agg * (1 - epsilon)

/-- The closed-form solution `σ* = (R_ind - A) / (R_ind * β - A * α_eff)`
named in the docstring of `critical_threshold`. -/
def sigmaStar (epsilon n : ℝ) (params : SimulationParameters) : ℝ :=
  (params.cooperation.R_ind - aggregationFactor n params) /
    (params.cooperation.R_ind * params.vulnerability.beta_ind -
      aggregationFactor n params * alphaEff epsilon params)

/-- Function `critical_threshold(epsilon, n, params)` from parameters.py. -/
def critical_threshold (epsilon n : ℝ) (params : SimulationParameters) : ℝ :=
  let A := aggregationFactor n params
  let alpha_eff := alphaEff epsilon params
  let denom := params.cooperation.R_ind * params.vulnerability.beta_ind - A * alpha_eff
  if denom ≤ 0 then 0
  else
    let numerator := params.cooperation.R_ind - A
    if numerator ≤ 0 then 0
    else max 0 (min 1 (numerator / denom))

/-! ### The NumPy generator, as an abstract deterministic state machine

All randomness in the engine flows through one `np.random.default_rng(seed)`
instance owned by the orchestrator.  We model it as an abstract state type
`σ` together with deterministic transition functions, one per NumPy method
the engine calls, plus the range facts about `Generator.random` and
`Generator.integers` that the proofs need. -/

/-- Abstract model of `np.random.Generator` as threaded by the engine. -/
structure Rng (σ : Type) where
  init : ℤ → σ
  random : σ → ℝ × σ
  normal : ℝ → ℝ → σ → ℝ × σ
  binomial : ℤ → ℝ → σ → ℤ × σ
  integers : ℤ → ℤ → σ → ℤ × σ
  uniform : ℝ → ℝ → σ → ℝ × σ
  choice : List ℤ → σ → ℤ × σ
  random_nonneg : ∀ s, 0 ≤ (random s).1
  random_lt_one : ∀ s, (random s).1 < 1
  integers_ge : ∀ lo hi s, lo ≤ (integers lo hi s).1

/-! ### agents.py -/

/-- Enum `Strategy` from agents.py. -/
inductive Strategy where
  | AGGREGATOR
  | INDEPENDENT
deriving DecidableEq

/-- Dataclass `Band` from agents.py.  The obligations dict is modelled as
an insertion-ordered association list. -/
structure Band where
  band_id : ℤ
  size : ℤ
  home_location : ℝ × ℝ
  strategy : Strategy
  resources : ℝ
  prestige : ℝ
  monument_contributions : ℝ
  exotic_goods : ℤ
  obligations : List (ℤ × ℝ)
  aggregation_history : List Bool
  fitness_history : List ℝ
  strategy_history : List Strategy

/-- Lookup in the obligations dict (first matching key, as in a Python
dict, whose keys are unique). -/
def obLookup (l : List (ℤ × ℝ)) (k : ℤ) : Option ℝ :=
  (l.find? (fun e => e.1 == k)).map Prod.snd

/-- Assignment `d[k] = v` in the obligations dict: replaces the value at an
existing key in place, otherwise appends at the end (insertion order). -/
def obSet : List (ℤ × ℝ) → ℤ → ℝ → List (ℤ × ℝ)
  | [], k, v => [(k, v)]
  | e :: t, k, v => if e.1 = k then (k, v) :: t else e :: obSet t k v

/-- Deletion `del d[k]` in the obligations dict. -/
def obRemove : List (ℤ × ℝ) → ℤ → List (ℤ × ℝ)
  | [], _ => []
  | e :: t, k => if e.1 = k then t else e :: obRemove t k

/-- Arithmetic mean as computed by `np.mean` on a list of floats. -/
def listMean (l : List ℝ) : ℝ := l.sum / l.length

/-- Method `Band.decide_strategy` from agents.py. -/
def decideStrategy {σ : Type} (R : Rng σ) (b : Band) (expected_n sigma epsilon : ℝ)
    (params : SimulationParameters) (s : σ) : Strategy × σ :=
  let E_W_agg := W_aggregator sigma epsilon expected_n params
  let E_W_ind := W_independent sigma params
  let fitness_diff := E_W_agg - E_W_ind
  let fitness_diff :=
    if 5 ≤ b.fitness_history.length then
      let recent_fitness := listMean (b.fitness_history.drop (b.fitness_history.length - 5))
      let long_term_fitness := listMean b.fitness_history
      if b.aggregation_history.getLastD false then
        if long_term_fitness < recent_fitness then fitness_diff + 0.05 else fitness_diff - 0.05
      else
        if long_term_fitness < recent_fitness then fitness_diff - 0.05 else fitness_diff + 0.05
    else fitness_diff
  let temperature : ℝ := 10
  let p_aggregate := 1 / (1 + Real.exp (-temperature * fitness_diff))
  let rs := R.random s
  (if rs.1 < p_aggregate then Strategy.AGGREGATOR else Strategy.INDEPENDENT, rs.2)

/-- Method `Band.calculate_travel_cost` from agents.py. -/
def calculateTravelCost (b : Band) (destination : ℝ × ℝ) (cost_per_km : ℝ) : ℝ :=
  let dx := destination.1 - b.home_location.1
  let dy := destination.2 - b.home_location.2
  Real.sqrt (dx ^ 2 + dy ^ 2) * cost_per_km

/-- Method `Band.invest_in_monument` from agents.py.  Returns the amount
invested, the updated band and the updated generator state; the generator
is drawn from only past the resource guard, as in the source. -/
def investInMonument {σ : Type} (R : Rng σ) (b : Band) (investment_rate : ℝ) (s : σ) :
    ℝ × Band × σ :=
  if b.resources < 0.3 then (0, b, s)
  else
    let base_investment := (b.size : ℝ) * investment_rate * b.resources
    let rs := R.random s
    let investment := base_investment * (0.8 + 0.4 * rs.1)
    (investment,
      { b with monument_contributions := b.monument_contributions + investment,
               prestige := b.prestige + investment * 0.1 }, rs.2)

/-- Method `Band.acquire_exotic` from agents.py. -/
def acquireExotic {σ : Type} (R : Rng σ) (b : Band) (acquisition_cost : ℝ) (s : σ) :
    Bool × Band × σ :=
  if b.resources < acquisition_cost + 0.2 then (false, b, s)
  else
    let p_acquire := 0.3 * (1 + b.prestige / (1 + b.prestige))
    let rs := R.random s
    if rs.1 < p_acquire then
      (true,
        { b with exotic_goods := b.exotic_goods + 1,
                 resources := b.resources - acquisition_cost,
                 prestige := b.prestige + 0.15 }, rs.2)
    else (false, b, rs.2)

/-- Method `Band.form_obligation` from agents.py (strengthen-or-create,
then cap at 1). -/
def formObligation (b : Band) (partner_id : ℤ) (strength : ℝ) : Band :=
  let updated := ((obLookup b.obligations partner_id).getD 0) + strength
  { b with obligations := obSet b.obligations partner_id (min 1 updated) }

/-- Method `Band.call_obligation` from agents.py.  Returns the help
received and the updated band. -/
def callObligation (b : Band) (partner_id : ℤ) (need : ℝ) : ℝ × Band :=
  match obLookup b.obligations partner_id with
  | none => (0, b)
  | some strength =>
    let help_received := min need (strength * 0.5)
    let updated := strength * 0.7
    if updated < 0.05 then
      (help_received, { b with obligations := obRemove b.obligations partner_id })
    else
      (help_received, { b with obligations := obSet b.obligations partner_id updated })

/-- Method `Band.reproduce` from agents.py. -/
def reproduce {σ : Type} (R : Rng σ) (b : Band) (fitness birth_rate death_rate : ℝ)
    (s : σ) : Band × σ :=
  let effective_birth_rate := birth_rate * fitness * (0.5 + b.resources)
  let bs := R.binomial b.size effective_birth_rate s
  let ds := R.binomial b.size death_rate bs.2
  ({ b with size := max 1 (b.size + bs.1 - ds.1) }, ds.2)

/-- Method `Band.suffer_shortfall` from agents.py. -/
def sufferShortfall {σ : Type} (R : Rng σ) (b : Band) (vulnerability sigma : ℝ)
    (s : σ) : ℤ × Band × σ :=
  let mortality_rate := vulnerability * sigma
  let ds := R.binomial b.size mortality_rate s
  (ds.1, { b with size := max 1 (b.size - ds.1) }, ds.2)

/-- Dataclass `AggregationSite` from agents.py (the unused
`exotic_sources` dict is omitted). -/
structure AggregationSite where
  site_id : ℤ
  name : String
  location : ℝ × ℝ
  ecotone_advantage : ℝ
  monument_level : ℝ
  monument_history : List ℝ
  attending_bands : List ℤ
  current_population : ℤ
  total_exotics : ℤ

/-- Method `AggregationSite.add_attending_band` from agents.py
(idempotent per band id). -/
def addAttendingBand (site : AggregationSite) (b : Band) : AggregationSite :=
  if b.band_id ∈ site.attending_bands then site
  else
    { site with attending_bands := site.attending_bands ++ [b.band_id],
                current_population := site.current_population + b.size,
                total_exotics := site.total_exotics + b.exotic_goods }

/-- Method `AggregationSite.record_construction` from agents.py. -/
def recordConstruction (site : AggregationSite) (investment : ℝ) : AggregationSite :=
  { site with monument_level := site.monument_level + investment,
              monument_history := site.monument_history ++ [site.monument_level + investment] }

/-- Method `AggregationSite.reset_annual_state` from agents.py
(attendance only; the monument level persists). -/
def resetAnnualState (site : AggregationSite) : AggregationSite :=
  { site with attending_bands := [], current_population := 0 }

/-- Property `AggregationSite.n_attending` from agents.py. -/
def nAttending (site : AggregationSite) : ℕ := site.attending_bands.length

/-- Function `create_bands` from agents.py, drawing from the generator in
the source's order: x, y, strategy draw, size offset, initial resources. -/
def createBands {σ : Type} (R : Rng σ) (n_bands : ℕ) (initial_size : ℤ)
    (region_size : ℝ) (s : σ) : List Band × σ :=
  (List.range n_bands).foldl
    (fun acc i =>
      let xs := R.uniform 0 region_size acc.2
      let ys := R.uniform 0 region_size xs.2
      let r1s := R.random ys.2
      let strategy := if r1s.1 < 0.4 then Strategy.AGGREGATOR else Strategy.INDEPENDENT
      let dzs := R.integers (-5) 6 r1s.2
      let r2s := R.random dzs.2
      (acc.1 ++ [{ band_id := (i : ℤ), size := initial_size + dzs.1,
                   home_location := (xs.1, ys.1),
                   strategy := strategy, resources := 0.4 + 0.2 * r2s.1,
                   prestige := 0, monument_contributions := 0, exotic_goods := 0,
                   obligations := [], aggregation_history := [], fitness_history := [],
                   strategy_history := [] }], r2s.2))
    ([], s)

/-- Function `create_aggregation_site` from agents.py. -/
def createAggregationSite (location : ℝ × ℝ) (epsilon : ℝ) : AggregationSite :=
  { site_id := 0, name := "Poverty Point", location := location,
    ecotone_advantage := epsilon, monument_level := 0, monument_history := [],
    attending_bands := [], current_population := 0, total_exotics := 0 }

/-! ### core_simulation.py -/

/-- Dataclass `YearlyState` from core_simulation.py. -/
structure YearlyState where
  year : ℤ
  total_population : ℤ
  n_bands : ℕ
  mean_band_size : ℝ
  n_aggregators : ℕ
  n_independents : ℕ
  strategy_dominance : ℝ
  aggregation_size : ℕ
  aggregation_population : ℤ
  monument_level : ℝ
  annual_construction : ℝ
  total_exotics : ℤ
  sigma_effective : ℝ
  in_shortfall : Bool
  shortfall_magnitude : ℝ
  mean_fitness_aggregators : ℝ
  mean_fitness_independents : ℝ

/-- Mutable state of a `PovertyPointSimulation` instance: the parameter
set, the band list, the aggregation site, the shortfall bookkeeping, the
append-only list of yearly snapshots, and the generator state. -/
structure SimState (σ : Type) where
  params : SimulationParameters
  bands : List Band
  site : AggregationSite
  year : ℤ
  in_shortfall : Bool
  shortfall_remaining : ℤ
  shortfall_magnitude : ℝ
  yearly_states : List YearlyState
  rng : σ

/-- Python `int(x)` applied to a float: truncation toward zero. -/
def pyInt (x : ℝ) : ℤ := if x < 0 then -⌊-x⌋ else ⌊x⌋

/-- Shortfall duration `max(1, int(1 + magnitude * duration_scale))`, as
written inline in `_generate_shortfall` (with scale 2.5) and in
`_evaluate_shortfall` (with `ShortfallParams.duration_scale`). -/
def shortfallDuration (magnitude duration_scale : ℝ) : ℤ :=
  max 1 (pyInt (1 + magnitude * duration_scale))

/-- Method `PovertyPointSimulation._generate_shortfall`. -/
def generateShortfall {σ : Type} (R : Rng σ) (st : SimState σ) : (Bool × ℝ × ℤ) × σ :=
  let sigma := st.params.sigma
  let mean_interval := 20 * (1 - sigma) + 5
  let p_shortfall := 1 / mean_interval
  let rs := R.random st.rng
  if rs.1 < p_shortfall then
    let zs := R.normal 0 0.1 rs.2
    let magnitude := 0.3 + 0.5 * sigma + zs.1
    let magnitude := min 0.9 (max 0.2 magnitude)
    let duration := shortfallDuration magnitude 2.5
    ((true, magnitude, duration), zs.2)
  else ((false, 0, 0), rs.2)

/-- Generic left-to-right loop over the band list with the generator
threaded through, as every `for band in self.bands` loop of the engine. -/
def bandLoop {σ : Type} (f : Band → σ → Band × σ) : List Band → σ → List Band × σ
  | [], s => ([], s)
  | b :: t, s =>
    let p := f b s
    let rest := bandLoop f t p.2
    (p.1 :: rest.1, rest.2)

/-- Per-band body of `_run_dispersal_season`. -/
def dispersalBandStep {σ : Type} (R : Rng σ) (in_shortfall : Bool)
    (shortfall_magnitude : ℝ) (params : SimulationParameters) (b : Band) (s : σ) :
    Band × σ :=
  let rs := R.random s
  let base_harvest := 0.4 + 0.2 * rs.1
  let base_harvest :=
    if in_shortfall then base_harvest * (1 - shortfall_magnitude) else base_harvest
  let harvest :=
    if b.strategy = Strategy.AGGREGATOR then
      base_harvest * (1 - params.costs.C_opportunity)
    else base_harvest
  let consumption := (b.size : ℝ) * 0.02
  ({ b with resources := min 1 (max 0 (b.resources + harvest - consumption)) }, rs.2)

/-- Loop of `_run_dispersal_season`. -/
def dispersalBands {σ : Type} (R : Rng σ) (in_shortfall : Bool) (shortfall_magnitude : ℝ)
    (params : SimulationParameters) : List Band → σ → List Band × σ :=
  bandLoop (dispersalBandStep R in_shortfall shortfall_magnitude params)

/-- Method `PovertyPointSimulation._run_dispersal_season`. -/
def runDispersalSeason {σ : Type} (R : Rng σ) (st : SimState σ) : SimState σ :=
  let r := dispersalBands R st.in_shortfall st.shortfall_magnitude st.params st.bands st.rng
  { st with bands := r.1, rng := r.2 }

/-- Per-band body of `_run_strategy_decisions`. -/
def strategyBandStep {σ : Type} (R : Rng σ) (expected_n : ℝ)
    (params : SimulationParameters) (b : Band) (s : σ) : Band × σ :=
  let ds := decideStrategy R b expected_n params.sigma params.epsilon params s
  ({ b with strategy := ds.1, strategy_history := b.strategy_history ++ [ds.1] }, ds.2)

/-- Loop of `_run_strategy_decisions`. -/
def strategyBands {σ : Type} (R : Rng σ) (expected_n : ℝ)
    (params : SimulationParameters) : List Band → σ → List Band × σ :=
  bandLoop (strategyBandStep R expected_n params)

/-- Method `PovertyPointSimulation._run_strategy_decisions`: the expected
aggregation size is last year's attendance (read before the reset),
floored at 5. -/
def runStrategyDecisions {σ : Type} (R : Rng σ) (st : SimState σ) : SimState σ :=
  let last_n : ℤ := nAttending st.site
  let expected_n : ℝ := ((max 5 last_n : ℤ) : ℝ)
  let r := strategyBands R expected_n st.params st.bands st.rng
  { st with bands := r.1, rng := r.2 }

/-- Per-band body of `_run_aggregation_season`: returns the processed
band, the updated site, the band's monument investment, and the generator
state. -/
def aggregationBandStep {σ : Type} (R : Rng σ) (in_shortfall : Bool)
    (shortfall_magnitude : ℝ) (params : SimulationParameters) (b : Band)
    (site : AggregationSite) (s : σ) : Band × AggregationSite × ℝ × σ :=
  if b.strategy = Strategy.AGGREGATOR then
    let travel_cost := calculateTravelCost b site.location 0.0005
    let b := { b with resources := b.resources - min travel_cost (b.resources * 0.5) }
    let site := addAttendingBand site b
    let b := { b with aggregation_history := b.aggregation_history ++ [true] }
    let iv := investInMonument R b params.costs.C_signal s
    let ae := acquireExotic R iv.2.1 0.1 iv.2.2
    let ob : Band × σ :=
      if 1 < site.attending_bands.length then
        let potential_partners :=
          site.attending_bands.filter (fun id => id != ae.2.1.band_id)
        if potential_partners.isEmpty then (ae.2.1, ae.2.2)
        else
          let rs := R.random ae.2.2
          if rs.1 < 0.3 then
            let cs := R.choice potential_partners rs.2
            (formObligation ae.2.1 cs.1 0.1, cs.2)
          else (ae.2.1, rs.2)
      else (ae.2.1, ae.2.2)
    (ob.1, site, iv.1, ob.2)
  else
    let extra_harvest := 0.1 * (if in_shortfall then 1 - shortfall_magnitude else 1)
    ({ b with resources := min 1 (b.resources + extra_harvest),
              aggregation_history := b.aggregation_history ++ [false] }, site, 0, s)

/-- Loop of `_run_aggregation_season`: each band is processed against the
site state as mutated by the bands before it, accumulating the year's
total construction. -/
def aggregationBands {σ : Type} (R : Rng σ) (in_shortfall : Bool)
    (shortfall_magnitude : ℝ) (params : SimulationParameters) :
    List Band → AggregationSite → ℝ → σ → List Band × AggregationSite × ℝ × σ
  | [], site, total_construction, s => ([], site, total_construction, s)
  | b :: t, site, total_construction, s =>
    let p := aggregationBandStep R in_shortfall shortfall_magnitude params b site s
    let rest := aggregationBands R in_shortfall shortfall_magnitude params t p.2.1
      (total_construction + p.2.2.1) p.2.2.2
    (p.1 :: rest.1, rest.2)

/-- Method `PovertyPointSimulation._run_aggregation_season`. -/
def runAggregationSeason {σ : Type} (R : Rng σ) (st : SimState σ) : SimState σ :=
  let site := resetAnnualState st.site
  let r :=
    aggregationBands R st.in_shortfall st.shortfall_magnitude st.params st.bands site 0 st.rng
  { st with bands := r.1, site := recordConstruction r.2.1 r.2.2.1, rng := r.2.2.2 }

/-- Per-band body of `_apply_shortfall_mortality` (only reached when the
run is in shortfall). -/
def mortalityBandStep {σ : Type} (R : Rng σ) (params : SimulationParameters)
    (b : Band) (s : σ) : Band × σ :=
  let sigma_eff :=
    if b.strategy = Strategy.AGGREGATOR then params.sigma * (1 - params.epsilon)
    else params.sigma
  let vulnerability :=
    if b.strategy = Strategy.AGGREGATOR then params.vulnerability.alpha_agg
    else params.vulnerability.beta_ind
  let sf := sufferShortfall R b vulnerability sigma_eff s
  if sf.2.1.strategy = Strategy.AGGREGATOR ∧ sf.2.1.obligations ≠ [] then
    let cs := R.choice (sf.2.1.obligations.map Prod.fst) sf.2.2
    let co := callObligation sf.2.1 cs.1 0.2
    ({ co.2 with resources := co.2.resources + co.1 }, cs.2)
  else (sf.2.1, sf.2.2)

/-- Loop of `_apply_shortfall_mortality`. -/
def mortalityBands {σ : Type} (R : Rng σ) (params : SimulationParameters) :
    List Band → σ → List Band × σ :=
  bandLoop (mortalityBandStep R params)

/-- Method `PovertyPointSimulation._apply_shortfall_mortality`. -/
def applyShortfallMortality {σ : Type} (R : Rng σ) (st : SimState σ) : SimState σ :=
  if st.in_shortfall then
    let r := mortalityBands R st.params st.bands st.rng
    { st with bands := r.1, rng := r.2 }
  else st

/-- The band-size clamp at the end of `_apply_reproduction` ("band
dissolution/fission"). -/
def clampBandSize (params : SimulationParameters) (b : Band) : Band :=
  if b.size < params.population.min_band_size then
    { b with size := params.population.min_band_size }
  else if params.population.max_band_size < b.size then
    { b with size := params.population.max_band_size }
  else b

/-- Per-band body of `_apply_reproduction`. -/
def reproductionBandStep {σ : Type} (R : Rng σ) (params : SimulationParameters)
    (n_attending : ℕ) (b : Band) (s : σ) : Band × σ :=
  let fitness :=
    if b.aggregation_history.getLastD false then
      W_aggregator params.sigma params.epsilon (n_attending : ℝ) params
    else W_independent params.sigma params
  let b := { b with fitness_history := b.fitness_history ++ [fitness] }
  let rp :=
    reproduce R b fitness params.population.birth_rate params.population.death_rate s
  (clampBandSize params rp.1, rp.2)

/-- Loop of `_apply_reproduction`. -/
def reproductionBands {σ : Type} (R : Rng σ) (params : SimulationParameters)
    (n_attending : ℕ) : List Band → σ → List Band × σ :=
  bandLoop (reproductionBandStep R params n_attending)

/-- Method `PovertyPointSimulation._apply_reproduction`. -/
def applyReproduction {σ : Type} (R : Rng σ) (st : SimState σ) : SimState σ :=
  let r := reproductionBands R st.params (nAttending st.site) st.bands st.rng
  { st with bands := r.1, rng := r.2 }

/-- The immutable yearly snapshot built by
`PovertyPointSimulation._record_state`. -/
def mkYearlyState {σ : Type} (st : SimState σ) : YearlyState :=
  let n_agg := st.bands.countP (fun b => b.strategy == Strategy.AGGREGATOR)
  let n_ind := st.bands.length - n_agg
  let n_total := st.bands.length
  let dominance :=
    if 0 < n_total then ((n_agg : ℝ) - (n_ind : ℝ)) / (n_total : ℝ) else 0
  let agg_fitness :=
    (st.bands.filter
      (fun b => b.strategy == Strategy.AGGREGATOR && !b.fitness_history.isEmpty)).map
      (fun b => b.fitness_history.getLastD 0)
  let ind_fitness :=
    (st.bands.filter
      (fun b => b.strategy == Strategy.INDEPENDENT && !b.fitness_history.isEmpty)).map
      (fun b => b.fitness_history.getLastD 0)
  let state : YearlyState :=
    { year := st.year,
      total_population := (st.bands.map Band.size).sum,
      n_bands := st.bands.length,
      mean_band_size := listMean (st.bands.map (fun b => (b.size : ℝ))),
      n_aggregators := n_agg,
      n_independents := n_ind,
      strategy_dominance := dominance,
      aggregation_size := nAttending st.site,
      aggregation_population := st.site.current_population,
      monument_level := st.site.monument_level,
      annual_construction :=
        if 1 < st.site.monument_history.length then
          st.site.monument_history.getLastD 0 - st.site.monument_history.dropLast.getLastD 0
        else st.site.monument_level,
      total_exotics := (st.bands.map Band.exotic_goods).sum,
      sigma_effective := st.params.sigma * (1 - st.params.epsilon),
      in_shortfall := st.in_shortfall,
      shortfall_magnitude := st.shortfall_magnitude,
      mean_fitness_aggregators := if agg_fitness.isEmpty then 0 else listMean agg_fitness,
      mean_fitness_independents := if ind_fitness.isEmpty then 0 else listMean ind_fitness }
  state

/-- Method `PovertyPointSimulation._record_state`: builds the yearly
snapshot and appends it to the result sequence. -/
def recordState {σ : Type} (st : SimState σ) : SimState σ :=
  { st with yearly_states := st.yearly_states ++ [mkYearlyState st] }

/-- Shortfall bookkeeping at the top of `PovertyPointSimulation.step`
(decrement a running episode, otherwise roll for a new one). -/
def shortfallUpdate {σ : Type} (R : Rng σ) (st : SimState σ) : SimState σ :=
  if 0 < st.shortfall_remaining then
    let remaining := st.shortfall_remaining - 1
    if remaining = 0 then
      { st with shortfall_remaining := 0, in_shortfall := false, shortfall_magnitude := 0 }
    else { st with shortfall_remaining := remaining }
  else
    let g := generateShortfall R st
    if g.1.1 then
      { st with in_shortfall := true, shortfall_magnitude := g.1.2.1,
                shortfall_remaining := g.1.2.2, rng := g.2 }
    else { st with rng := g.2 }

/-- Method `PovertyPointSimulation.step`: one simulated year. -/
def step {σ : Type} (R : Rng σ) (st : SimState σ) : SimState σ :=
  let st := shortfallUpdate R st
  let st := runDispersalSeason R st
  let st := runStrategyDecisions R st
  let st := runAggregationSeason R st
  let st := applyShortfallMortality R st
  let st := applyReproduction R st
  let st := recordState st
  { st with year := st.year + 1 }

/-- Iterated `step`. -/
def stepN {σ : Type} (R : Rng σ) : ℕ → SimState σ → SimState σ
  | 0, st => st
  | n + 1, st => step R (stepN R n st)

/-- Constructor `PovertyPointSimulation.__init__`: seeds the generator,
creates the bands, and places the aggregation site at the region center. -/
def initSimulation {σ : Type} (R : Rng σ) (params : SimulationParameters) : SimState σ :=
  let cb :=
    createBands R params.population.n_bands params.population.initial_band_size
      params.environment.region_size (R.init params.seed)
  let center := params.environment.region_size / 2
  { params := params, bands := cb.1,
    site := createAggregationSite (center, center) params.epsilon,
    year := 0, in_shortfall := false, shortfall_remaining := 0,
    shortfall_magnitude := 0, yearly_states := [], rng := cb.2 }

/-- Method `PovertyPointSimulation.run`: the full annual-cycle loop for
`params.duration` years (the post-run summary statistics mutate only the
summary scalars, not the snapshot sequence, and are not modelled). -/
def runSimulation {σ : Type} (R : Rng σ) (params : SimulationParameters) : SimState σ :=
  stepN R params.duration (initSimulation R params)

/-! ### environment.py — covariance-matrix construction -/

/-- Enum `ResourceZone` from environment.py. -/
inductive ResourceZone where
  | AQUATIC
  | TERRESTRIAL
  | MAST
  | ECOTONE
deriving DecidableEq

/-- The fields of `EcologicalPatch` consumed by
`Environment._build_covariance_matrix`. -/
structure EnvPatch where
  zone_type : ResourceZone
  variability : ℝ

/-- The zone-covariance fields of `EnvironmentConfig` from environment.py. -/
structure EnvCovConfig where
  aquatic_terrestrial_cov : ℝ
  aquatic_mast_cov : ℝ
  terrestrial_mast_cov : ℝ

/-- Default zone covariances of `EnvironmentConfig`. -/
def defaultEnvCovConfig : EnvCovConfig :=
  { aquatic_terrestrial_cov := -0.3, aquatic_mast_cov := 0.1, terrestrial_mast_cov := 0.2 }

/-- The per-pair base covariance chosen in
`Environment._build_covariance_matrix` (unordered zone-pair rules, then
same-zone 0.5, then the ecotone-with-others 0.1 fallback). -/
def zonePairCov (config : EnvCovConfig) (z1 z2 : ResourceZone) : ℝ :=
  if (z1 = ResourceZone.AQUATIC ∧ z2 = ResourceZone.TERRESTRIAL) ∨
      (z1 = ResourceZone.TERRESTRIAL ∧ z2 = ResourceZone.AQUATIC) then
    config.aquatic_terrestrial_cov
  else if (z1 = ResourceZone.AQUATIC ∧ z2 = ResourceZone.MAST) ∨
      (z1 = ResourceZone.MAST ∧ z2 = ResourceZone.AQUATIC) then
    config.aquatic_mast_cov
  else if (z1 = ResourceZone.TERRESTRIAL ∧ z2 = ResourceZone.MAST) ∨
      (z1 = ResourceZone.MAST ∧ z2 = ResourceZone.TERRESTRIAL) then
    config.terrestrial_mast_cov
  else if z1 = z2 then 0.5
  else 0.1

/-- The covariance matrix built by `Environment._build_covariance_matrix`
before the defensive correction: identity diagonal, and for each pair of
distinct patches the zone-pair base covariance scaled by
`sqrt(var_i * var_j)`. -/
def buildCovariance (config : EnvCovConfig) (n : ℕ) (patch : Fin n → EnvPatch) :
    Matrix (Fin n) (Fin n) ℝ :=
  Matrix.of fun i j =>
    if i = j then 1
    else
      zonePairCov config (patch i).zone_type (patch j).zone_type *
        Real.sqrt ((patch i).variability ^ 2 * (patch j).variability ^ 2)

/-- The defensive correction at the end of
`Environment._build_covariance_matrix`: after the eigenvalue check, if the
minimum eigenvalue `min_eig` is negative the code adds
`np.eye(n) * (abs(min_eig) + 0.01)`. -/
def correctedCovariance (config : EnvCovConfig) (n : ℕ) (patch : Fin n → EnvPatch)
    (min_eig : ℝ) : Matrix (Fin n) (Fin n) ℝ :=
  if min_eig < 0 then
    buildCovariance config n patch + (|min_eig| + 0.01) • (1 : Matrix (Fin n) (Fin n) ℝ)
  else buildCovariance config n patch

/-- Real eigenvalue of a real square matrix, via an eigenvector. -/
def IsEigenvalue {n : ℕ} (M : Matrix (Fin n) (Fin n) ℝ) (mu : ℝ) : Prop :=
  ∃ v : Fin n → ℝ, v ≠ 0 ∧ M.mulVec v = mu • v

/-! ### Concrete inputs used by the witnesses -/

/-- A concrete deterministic instance of the generator interface, used
only to instantiate universally quantified theorems at a concrete input. -/
def dummyRng : Rng Unit :=
  { init := fun _ => (),
    random := fun s => (1 / 10, s),
    normal := fun mu _ s => (mu, s),
    binomial := fun _ _ s => (0, s),
    integers := fun lo _ s => (lo, s),
    uniform := fun lo _ s => (lo, s),
    choice := fun l s => (l.headD 0, s),
    random_nonneg := fun _ => by norm_num,
    random_lt_one := fun _ => by norm_num,
    integers_ge := fun _ _ _ => le_refl _ }

/-- A concrete band holding one reciprocal obligation of strength 0.8. -/
def exampleBand : Band :=
  { band_id := 0, size := 10, home_location := (0, 0),
    strategy := Strategy.AGGREGATOR, resources := 0.95, prestige := 0,
    monument_contributions := 0, exotic_goods := 0,
    obligations := [(1, 0.8)], aggregation_history := [true],
    fitness_history := [], strategy_history := [] }

/-- A concrete band with resources 0.5, for exercising
`invest_in_monument`. -/
def investBand : Band :=
  { band_id := 2, size := 10, home_location := (0, 0),
    strategy := Strategy.AGGREGATOR, resources := 0.5, prestige := 0,
    monument_contributions := 0, exotic_goods := 0,
    obligations := [], aggregation_history := [], fitness_history := [],
    strategy_history := [] }

/-- A concrete in-shortfall simulation state holding `exampleBand`, with
uncertainty sigma = 1. -/
def exampleState : SimState Unit :=
  { params := default_parameters 1 0.35 42, bands := [exampleBand],
    site := createAggregationSite (250, 250) 0.35, year := 0,
    in_shortfall := true, shortfall_remaining := 2, shortfall_magnitude := 0.5,
    yearly_states := [], rng := () }

/-- A single aquatic patch, for instantiating the covariance construction
at a concrete input. -/
def onePatch : Fin 1 → EnvPatch := fun _ =>
  { zone_type := ResourceZone.AQUATIC, variability := 0.15 }

/-- A parameter set with independent vulnerability beta = 0, for which the
solving denominator of `critical_threshold` is non-positive. -/
def paramsDegenerate : SimulationParameters :=
  { default_parameters 0.5 0.35 42 with
    vulnerability := { alpha_agg := 0.40, beta_ind := 0 } }

end

/-! ## Helper lemmas -/

/-- At aggregation size 1 the cooperation benefit is the solo baseline. -/
theorem cooperation_benefit_one (params : CooperationParameters) :
    cooperation_benefit 1 params = 1 := by
  simp [cooperation_benefit]

/-- Looking up a freshly assigned key in the obligations dict returns the
assigned value. -/
theorem obLookup_obSet_self (l : List (ℤ × ℝ)) (k : ℤ) (v : ℝ) :
    obLookup (obSet l k v) k = some v := by
  induction l with
  | nil => simp [obLookup, obSet]
  | cons e t ih =>
    by_cases h : e.1 = k
    · simp [obSet, h, obLookup]
    · simp only [obSet, if_neg h]
      simpa [obLookup, List.find?_cons, h] using ih

/-- Looking up an absent key in the obligations dict returns nothing. -/
theorem obLookup_eq_none_of_not_mem (l : List (ℤ × ℝ)) (k : ℤ)
    (h : k ∉ l.map Prod.fst) : obLookup l k = none := by
  induction l with
  | nil => simp [obLookup]
  | cons e t ih =>
    simp only [List.map_cons, List.mem_cons, not_or] at h
    have he : ¬ e.1 = k := fun hek => h.1 hek.symm
    simpa [obLookup, List.find?_cons, he] using ih h.2

/-- Deleting a key from the (unique-key) obligations dict removes it. -/
theorem obLookup_obRemove_self (l : List (ℤ × ℝ)) (k : ℤ)
    (hnd : (l.map Prod.fst).Nodup) : obLookup (obRemove l k) k = none := by
  induction l with
  | nil => simp [obRemove, obLookup]
  | cons e t ih =>
    simp only [List.map_cons, List.nodup_cons] at hnd
    by_cases h : e.1 = k
    · simp only [obRemove, if_pos h]
      exact obLookup_eq_none_of_not_mem t k (h ▸ hnd.1)
    · simp only [obRemove, if_neg h]
      simpa [obLookup, List.find?_cons, h] using ih hnd.2

/-! ## Claim theorems -/

/-- C1: for every parameter set, every epsilon and every n for which the
closed-form value sigma-star = (R_ind - A) / (R_ind * beta - A * alpha_eff)
has positive numerator and denominator (hence is strictly positive) and is
at most 1, `critical_threshold` returns exactly sigma-star, and at
sigma-star the two fitness functions agree:
`W_aggregator(sigma-star, epsilon, n) = W_independent(sigma-star)`. -/
theorem critical_threshold_solves_fitness_equality
    (params : SimulationParameters) (epsilon n : ℝ)
    (hnum : 0 < params.cooperation.R_ind - aggregationFactor n params)
    (hden : 0 < params.cooperation.R_ind * params.vulnerability.beta_ind -
      aggregationFactor n params * alphaEff epsilon params)
    (hle : sigmaStar epsilon n params ≤ 1) :
    critical_threshold epsilon n params = sigmaStar epsilon n params ∧
    W_aggregator (sigmaStar epsilon n params) epsilon n params =
      W_independent (sigmaStar epsilon n params) params := by
  have hpos : 0 < sigmaStar epsilon n params := div_pos hnum hden
  constructor
  · show (if params.cooperation.R_ind * params.vulnerability.beta_ind -
        aggregationFactor n params * alphaEff epsilon params ≤ 0 then (0 : ℝ)
      else if params.cooperation.R_ind - aggregationFactor n params ≤ 0 then 0
      else max 0 (min 1 ((params.cooperation.R_ind - aggregationFactor n params) /
        (params.cooperation.R_ind * params.vulnerability.beta_ind -
          aggregationFactor n params * alphaEff epsilon params)))) =
      sigmaStar epsilon n params
    rw [if_neg (not_le.2 hden), if_neg (not_le.2 hnum)]
    show max 0 (min 1 (sigmaStar epsilon n params)) = sigmaStar epsilon n params
    rw [min_eq_right hle, max_eq_right hpos.le]
  · have hDne : params.cooperation.R_ind * params.vulnerability.beta_ind -
        aggregationFactor n params * alphaEff epsilon params ≠ 0 := ne_of_gt hden
    have key : (1 - params.costs.C_total) *
        (1 - params.vulnerability.alpha_agg * (sigmaStar epsilon n params * (1 - epsilon))) *
        cooperation_benefit n params.cooperation * (1 + params.cooperation.B_recip) =
        params.cooperation.R_ind *
          (1 - params.vulnerability.beta_ind * sigmaStar epsilon n params) := by
      have hA : (1 - params.costs.C_total) *
          (1 - params.vulnerability.alpha_agg * (sigmaStar epsilon n params * (1 - epsilon))) *
          cooperation_benefit n params.cooperation * (1 + params.cooperation.B_recip) =
          aggregationFactor n params *
            (1 - alphaEff epsilon params * sigmaStar epsilon n params) := by
        unfold aggregationFactor alphaEff
        ring
      rw [hA]
      unfold sigmaStar
      field_simp
      ring
    show max 0 ((1 - params.costs.C_total) *
        (1 - params.vulnerability.alpha_agg * (sigmaStar epsilon n params * (1 - epsilon))) *
        cooperation_benefit n params.cooperation * (1 + params.cooperation.B_recip)) =
      max 0 (params.cooperation.R_ind *
        (1 - params.vulnerability.beta_ind * sigmaStar epsilon n params))
    rw [key]

/-- Witness for C1 at the default parameter set, epsilon = 0.35, n = 1. -/
theorem critical_threshold_solves_fitness_equality_witness :
    critical_threshold 0.35 1 (default_parameters 0.5 0.35 42) =
      sigmaStar 0.35 1 (default_parameters 0.5 0.35 42) ∧
    W_aggregator (sigmaStar 0.35 1 (default_parameters 0.5 0.35 42)) 0.35 1
        (default_parameters 0.5 0.35 42) =
      W_independent (sigmaStar 0.35 1 (default_parameters 0.5 0.35 42))
        (default_parameters 0.5 0.35 42) :=
  critical_threshold_solves_fitness_equality (default_parameters 0.5 0.35 42) 0.35 1
    (by norm_num [aggregationFactor, default_parameters, defaultCosts, defaultCooperation,
      CostParameters.C_total, cooperation_benefit_one])
    (by norm_num [aggregationFactor, alphaEff, default_parameters, defaultCosts,
      defaultCooperation, defaultVulnerability, CostParameters.C_total,
      cooperation_benefit_one])
    (by norm_num [sigmaStar, aggregationFactor, alphaEff, default_parameters, defaultCosts,
      defaultCooperation, defaultVulnerability, CostParameters.C_total,
      cooperation_benefit_one])

/-- C8: for every parameter set, epsilon and n, whenever the solving
denominator `R_ind * beta - A * alpha_eff` or the numerator `R_ind - A` is
non-positive, `critical_threshold` returns 0 (it is a total function, so
no error is raised), and in every case its result lies in [0, 1]. -/
theorem critical_threshold_degenerate_zero_and_bounded
    (epsilon n : ℝ) (params : SimulationParameters) :
    ((params.cooperation.R_ind * params.vulnerability.beta_ind -
        aggregationFactor n params * alphaEff epsilon params ≤ 0 ∨
      params.cooperation.R_ind - aggregationFactor n params ≤ 0) →
      critical_threshold epsilon n params = 0) ∧
    0 ≤ critical_threshold epsilon n params ∧ critical_threshold epsilon n params ≤ 1 := by
  unfold critical_threshold
  by_cases hd : params.cooperation.R_ind * params.vulnerability.beta_ind -
      aggregationFactor n params * alphaEff epsilon params ≤ 0
  · rw [if_pos hd]
    exact ⟨fun _ => rfl, le_refl _, by norm_num⟩
  · rw [if_neg hd]
    by_cases hn : params.cooperation.R_ind - aggregationFactor n params ≤ 0
    · rw [if_pos hn]
      exact ⟨fun _ => rfl, le_refl _, by norm_num⟩
    · rw [if_neg hn]
      refine ⟨fun h => absurd (h.resolve_left hd) hn, le_max_left _ _, ?_⟩
      exact max_le (by norm_num) (min_le_left _ _)

/-- Witness for C8 at a parameter set with beta = 0 (non-positive solving
denominator): the threshold is 0 and lies in [0, 1]. -/
theorem critical_threshold_degenerate_zero_and_bounded_witness :
    critical_threshold 0 1 paramsDegenerate = 0 ∧
    0 ≤ critical_threshold 0 1 paramsDegenerate ∧
    critical_threshold 0 1 paramsDegenerate ≤ 1 :=
  ⟨(critical_threshold_degenerate_zero_and_bounded 0 1 paramsDegenerate).1
      (Or.inl (by norm_num [aggregationFactor, alphaEff, paramsDegenerate, default_parameters,
        defaultCosts, defaultCooperation, CostParameters.C_total, cooperation_benefit_one])),
    (critical_threshold_degenerate_zero_and_bounded 0 1 paramsDegenerate).2⟩

/-- C4 counterexample: one call on an obligation of strength 0.8 leaves
stored strength 0.56 = 0.8 * 0.7, which is not half of 0.8 — the claim
that `call_obligation` halves the edge strength fails at this input. -/
theorem call_obligation_does_not_halve :
    obLookup (callObligation exampleBand 1 0.2).2.obligations 1 = some 0.56 ∧
    (0.56 : ℝ) ≠ 0.8 / 2 := by
  constructor
  · have hs : obLookup exampleBand.obligations 1 = some 0.8 := by
      simp [exampleBand, obLookup]
    simp only [callObligation, hs]
    rw [if_neg (by norm_num)]
    have : obSet exampleBand.obligations 1 (0.8 * 0.7) = [(1, 0.56)] := by
      simp [exampleBand, obSet]
      norm_num
    simp [exampleBand, obSet, obLookup]
    norm_num
  · norm_num

/-- C4 as amended: for every band and every partner id present in its
obligations map, one invocation of `call_obligation` multiplies the stored
edge strength by 0.7 (not 0.5), deletes the edge when the post-call
strength falls below the minimum weight 0.05, and returns the requested
need capped at half the pre-call edge strength. -/
theorem call_obligation_decay (b : Band) (partner_id : ℤ) (need strength : ℝ)
    (hnd : (b.obligations.map Prod.fst).Nodup)
    (hs : obLookup b.obligations partner_id = some strength) :
    (callObligation b partner_id need).1 = min need (strength * 0.5) ∧
    (if strength * 0.7 < 0.05 then
        obLookup (callObligation b partner_id need).2.obligations partner_id = none
      else obLookup (callObligation b partner_id need).2.obligations partner_id =
        some (strength * 0.7)) := by
  simp only [callObligation, hs]
  by_cases h7 : strength * 0.7 < 0.05
  · rw [if_pos h7, if_pos h7]
    exact ⟨rfl, obLookup_obRemove_self b.obligations partner_id hnd⟩
  · rw [if_neg h7, if_neg h7]
    exact ⟨rfl, obLookup_obSet_self b.obligations partner_id (strength * 0.7)⟩

/-- Witness for the amended C4 at a concrete band with one obligation of
strength 0.8, called with need 0.2. -/
theorem call_obligation_decay_witness :
    (callObligation exampleBand 1 0.2).1 = min 0.2 (0.8 * 0.5) ∧
    (if (0.8 : ℝ) * 0.7 < 0.05 then
        obLookup (callObligation exampleBand 1 0.2).2.obligations 1 = none
      else obLookup (callObligation exampleBand 1 0.2).2.obligations 1 =
        some (0.8 * 0.7)) :=
  call_obligation_decay exampleBand 1 0.2 0.8
    (by simp [exampleBand])
    (by simp [exampleBand, obLookup])

/-- C10 counterexample: at a band with resources 0.5, size 10 and rate
0.18, the prestige increase is one tenth of the investment amount, not the
investment amount itself. -/
theorem invest_in_monument_prestige_not_by_investment :
    (investInMonument dummyRng investBand 0.18 ()).2.1.prestige ≠
      investBand.prestige + (investInMonument dummyRng investBand 0.18 ()).1 := by
  have h : ¬ investBand.resources < 0.3 := by norm_num [investBand]
  simp only [investInMonument, if_neg h, dummyRng, investBand]
  norm_num

/-- C10 as amended: `invest_in_monument` modifies only
`monument_contributions` and `prestige`.  If resources < 0.3 it returns 0
and changes nothing; otherwise it increases `monument_contributions` by
the noisy non-negative investment amount and `prestige` by one tenth of
that amount.  Resources, size, exotic goods, obligations, histories,
strategy, id and location are unchanged: the investment never consumes any
of the band's resources. -/
theorem invest_in_monument_frame {σ : Type} (R : Rng σ) (b : Band)
    (investment_rate : ℝ) (s : σ) (hrate : 0 ≤ investment_rate) (hsize : 0 ≤ b.size) :
    (b.resources < 0.3 → (investInMonument R b investment_rate s).1 = 0 ∧
      (investInMonument R b investment_rate s).2.1 = b) ∧
    (¬ b.resources < 0.3 →
      (investInMonument R b investment_rate s).1 =
        (b.size : ℝ) * investment_rate * b.resources * (0.8 + 0.4 * (R.random s).1) ∧
      0 ≤ (investInMonument R b investment_rate s).1 ∧
      (investInMonument R b investment_rate s).2.1.monument_contributions =
        b.monument_contributions + (investInMonument R b investment_rate s).1 ∧
      (investInMonument R b investment_rate s).2.1.prestige =
        b.prestige + (investInMonument R b investment_rate s).1 * 0.1) ∧
    (investInMonument R b investment_rate s).2.1.resources = b.resources ∧
    (investInMonument R b investment_rate s).2.1.size = b.size ∧
    (investInMonument R b investment_rate s).2.1.exotic_goods = b.exotic_goods ∧
    (investInMonument R b investment_rate s).2.1.obligations = b.obligations ∧
    (investInMonument R b investment_rate s).2.1.aggregation_history =
      b.aggregation_history ∧
    (investInMonument R b investment_rate s).2.1.fitness_history = b.fitness_history ∧
    (investInMonument R b investment_rate s).2.1.strategy_history = b.strategy_history ∧
    (investInMonument R b investment_rate s).2.1.strategy = b.strategy ∧
    (investInMonument R b investment_rate s).2.1.band_id = b.band_id ∧
    (investInMonument R b investment_rate s).2.1.home_location = b.home_location := by
  by_cases hr : b.resources < 0.3
  · simp [investInMonument, if_pos hr, hr]
  · have hres : (0 : ℝ) ≤ b.resources := le_trans (by norm_num) (not_lt.1 hr)
    have hnoise : (0 : ℝ) ≤ 0.8 + 0.4 * (R.random s).1 := by
      have := R.random_nonneg s
      nlinarith
    have hinv : 0 ≤ (b.size : ℝ) * investment_rate * b.resources *
        (0.8 + 0.4 * (R.random s).1) := by
      have hz : (0 : ℝ) ≤ (b.size : ℝ) := by exact_mod_cast hsize
      positivity
    simp [investInMonument, if_neg hr, hr, hinv]

/-- Witness for the amended C10 at a concrete band with resources 0.5 and
rate 0.18. -/
theorem invest_in_monument_frame_witness :
    (investInMonument dummyRng investBand 0.18 ()).2.1.resources =
      investBand.resources ∧
    (investInMonument dummyRng investBand 0.18 ()).2.1.size = investBand.size :=
  ⟨(invest_in_monument_frame dummyRng investBand 0.18 () (by norm_num)
      (by norm_num [investBand])).2.2.1,
    (invest_in_monument_frame dummyRng investBand 0.18 () (by norm_num)
      (by norm_num [investBand])).2.2.2.1⟩

/-- C5 counterexample: at the clipped magnitude 0.2 (with the engine's
duration scale 2.5) the code's duration is `max(1, int(1.5)) = 1`, while
the claimed formula `max(1, round(1.5)) = 2`: the duration is truncated,
not rounded. -/
theorem shortfall_duration_not_rounded :
    shortfallDuration 0.2 2.5 ≠ max 1 (round ((1 : ℝ) + 0.2 * 2.5)) := by
  have h1 : shortfallDuration 0.2 2.5 = 1 := by
    have hfl : pyInt ((1 : ℝ) + 0.2 * 2.5) = 1 := by
      rw [pyInt, if_neg (by norm_num)]
      have : (1 : ℝ) + 0.2 * 2.5 = 1.5 := by norm_num
      rw [this, Int.floor_eq_iff]
      norm_num
    rw [shortfallDuration, hfl]
    norm_num
  have h2 : round ((1 : ℝ) + 0.2 * 2.5) = 2 := by
    have : (1 : ℝ) + 0.2 * 2.5 = 1.5 := by norm_num
    rw [this, round_eq, Int.floor_eq_iff]
    norm_num
  rw [h1, h2]
  norm_num

/-- C5 as amended: whenever `_generate_shortfall` starts a new episode, it
returns the clipped magnitude (in [0.2, 0.9]) and duration
`max(1, int(1 + magnitude * 2.5))`, where `int` truncates; the duration is
positive and is monotone in the magnitude, so more severe shortfalls last
longer. -/
theorem generate_shortfall_duration_truncates {σ : Type} (R : Rng σ) (st : SimState σ)
    (m : ℝ) (d : ℤ) (s' : σ)
    (h : generateShortfall R st = ((true, m, d), s')) :
    d = shortfallDuration m 2.5 ∧ 0.2 ≤ m ∧ m ≤ 0.9 ∧ 1 ≤ d ∧
    ∀ m1 m2 : ℝ, 0 ≤ m1 → m1 ≤ m2 →
      shortfallDuration m1 2.5 ≤ shortfallDuration m2 2.5 := by
  have hmono : ∀ m1 m2 : ℝ, 0 ≤ m1 → m1 ≤ m2 →
      shortfallDuration m1 2.5 ≤ shortfallDuration m2 2.5 := by
    intro m1 m2 h1 h12
    have e1 : pyInt (1 + m1 * 2.5) = ⌊(1 : ℝ) + m1 * 2.5⌋ := by
      rw [pyInt, if_neg (by nlinarith)]
    have e2 : pyInt (1 + m2 * 2.5) = ⌊(1 : ℝ) + m2 * 2.5⌋ := by
      rw [pyInt, if_neg (by nlinarith)]
    rw [shortfallDuration, shortfallDuration, e1, e2]
    exact max_le_max (le_refl 1) (Int.floor_le_floor (by nlinarith))
  rw [generateShortfall] at h
  by_cases hp : (R.random st.rng).1 < 1 / (20 * (1 - st.params.sigma) + 5)
  · rw [if_pos hp] at h
    have hm : m = min 0.9 (max 0.2 (0.3 + 0.5 * st.params.sigma +
        (R.normal 0 0.1 (R.random st.rng).2).1)) := by
      have := congrArg (fun x => x.1.2.1) h
      simpa using this.symm
    have hd : d = shortfallDuration (min 0.9 (max 0.2 (0.3 + 0.5 * st.params.sigma +
        (R.normal 0 0.1 (R.random st.rng).2).1))) 2.5 := by
      have := congrArg (fun x => x.1.2.2) h
      simpa using this.symm
    refine ⟨by rw [hd, hm], ?_, ?_, ?_, hmono⟩
    · rw [hm]
      exact le_min (by norm_num) (le_max_left _ _)
    · rw [hm]
      exact min_le_left _ _
    · rw [hd, shortfallDuration]
      exact le_max_left _ _
  · rw [if_neg hp] at h
    exact absurd (congrArg (fun x => x.1.1) h) (by simp)

/-- Witness for the amended C5: with the concrete generator and sigma = 1
the episode starts with magnitude 0.8 and duration 3; monotonicity is
instantiated at magnitudes 0.5 and 0.8. -/
theorem generate_shortfall_duration_truncates_witness :
    (3 : ℤ) = shortfallDuration 0.8 2.5 ∧ (0.2 : ℝ) ≤ 0.8 ∧ (0.8 : ℝ) ≤ 0.9 ∧
    (1 : ℤ) ≤ 3 ∧
    shortfallDuration 0.5 2.5 ≤ shortfallDuration 0.8 2.5 := by
  have h := generate_shortfall_duration_truncates dummyRng exampleState 0.8 3 () (by
    rw [generateShortfall]
    rw [if_pos (by norm_num [dummyRng, exampleState, default_parameters])]
    have hm : min 0.9 (max 0.2 (0.3 + 0.5 * (exampleState.params.sigma) +
        (dummyRng.normal 0 0.1 (dummyRng.random exampleState.rng).2).1)) = 0.8 := by
      norm_num [dummyRng, exampleState, default_parameters]
    have hd : shortfallDuration 0.8 2.5 = 3 := by
      rw [shortfallDuration, pyInt, if_neg (by norm_num)]
      have : (1 : ℝ) + 0.8 * 2.5 = 3 := by norm_num
      rw [this]
      norm_num
    simp only [hm, hd])
  exact ⟨h.1, h.2.1, h.2.2.1, h.2.2.2.1, h.2.2.2.2 0.5 0.8 (by norm_num) (by norm_num)⟩

/-- C2 evaluation at the failing input: in shortfall, an aggregator band
with resources 0.95 holding an obligation of strength 0.8 receives help
0.2 through `call_obligation`, and `_apply_shortfall_mortality` adds it
without clamping, leaving resources 1.15 > 1. -/
theorem resources_exceed_one_after_obligation_help :
    ((applyShortfallMortality dummyRng exampleState).bands.map Band.resources) =
      [1.15] ∧ (1 : ℝ) < 1.15 := by
  constructor
  · have hs : obLookup exampleBand.obligations 1 = some 0.8 := by
      simp [exampleBand, obLookup]
    rw [applyShortfallMortality]
    rw [if_pos (by rfl)]
    simp only [exampleState, mortalityBands, bandLoop, mortalityBandStep, sufferShortfall,
      dummyRng, exampleBand]
    norm_num [callObligation, obLookup, obSet]
  · norm_num

/-- C9: for every patch collection and zone-covariance configuration, if
`min_eig` bounds the eigenvalues of the constructed covariance matrix from
below (as the eigenvalue check's minimum does), then the matrix produced
after the defensive diagonal correction — applied exactly when
`min_eig < 0` — has no negative eigenvalues. -/
theorem corrected_covariance_no_negative_eigenvalues
    (config : EnvCovConfig) (n : ℕ) (patch : Fin n → EnvPatch) (min_eig : ℝ)
    (hlb : ∀ mu : ℝ, IsEigenvalue (buildCovariance config n patch) mu → min_eig ≤ mu) :
    ∀ mu : ℝ, IsEigenvalue (correctedCovariance config n patch min_eig) mu → 0 ≤ mu := by
  intro mu hmu
  unfold correctedCovariance at hmu
  by_cases hneg : min_eig < 0
  · rw [if_pos hneg] at hmu
    obtain ⟨v, hv, hEq⟩ := hmu
    have h2 : ((|min_eig| + 0.01) • (1 : Matrix (Fin n) (Fin n) ℝ)).mulVec v =
        (|min_eig| + 0.01) • v := by
      rw [Matrix.smul_mulVec_assoc, Matrix.one_mulVec]
    have h1 : (buildCovariance config n patch).mulVec v =
        (mu - (|min_eig| + 0.01)) • v := by
      have hadd : (buildCovariance config n patch).mulVec v +
          ((|min_eig| + 0.01) • (1 : Matrix (Fin n) (Fin n) ℝ)).mulVec v = mu • v := by
        rw [← Matrix.add_mulVec]
        exact hEq
      rw [h2] at hadd
      rw [sub_smul, eq_sub_iff_add_eq]
      exact hadd
    have hle : min_eig ≤ mu - (|min_eig| + 0.01) := hlb _ ⟨v, hv, h1⟩
    have habs : |min_eig| = -min_eig := abs_of_neg hneg
    rw [habs] at hle
    linarith
  · rw [if_neg hneg] at hmu
    exact le_trans (not_lt.1 hneg) (hlb mu hmu)

/-- Witness for C9 at a one-patch collection: for the single aquatic patch
the constructed matrix is the 1-by-1 identity; 2.01 is an eigenvalue of
the corrected matrix and the claim theorem shows it is non-negative. -/
theorem corrected_covariance_no_negative_eigenvalues_witness :
    IsEigenvalue (correctedCovariance defaultEnvCovConfig 1 onePatch (-1)) 2.01 ∧
    (0 : ℝ) ≤ 2.01 := by
  have hlb : ∀ mu : ℝ, IsEigenvalue (buildCovariance defaultEnvCovConfig 1 onePatch) mu →
      (-1 : ℝ) ≤ mu := by
    intro mu hmu
    obtain ⟨v, hv, hEq⟩ := hmu
    have hv0 : v 0 ≠ 0 := by
      intro h0
      apply hv
      funext i
      have : i = 0 := Subsingleton.elim i 0
      rw [this, h0]
      rfl
    have happ := congrFun hEq 0
    have hentry : (buildCovariance defaultEnvCovConfig 1 onePatch).mulVec v 0 = v 0 := by
      simp [buildCovariance, Matrix.mulVec, Matrix.dotProduct, Fin.sum_univ_one]
    rw [hentry] at happ
    have hsm : (mu • v) 0 = mu * v 0 := rfl
    rw [hsm] at happ
    have hmu1 : mu = 1 := by
      have h1 : mu * v 0 = 1 * v 0 := by
        rw [one_mul]
        exact happ.symm
      exact mul_right_cancel₀ hv0 h1
    rw [hmu1]
    norm_num
  have heig : IsEigenvalue (correctedCovariance defaultEnvCovConfig 1 onePatch (-1)) 2.01 := by
    refine ⟨fun _ => 1, ?_, ?_⟩
    · intro h0
      have := congrFun h0 0
      norm_num at this
    · funext i
      have hi : i = 0 := Subsingleton.elim i 0
      rw [hi]
      show (correctedCovariance defaultEnvCovConfig 1 onePatch (-1)).mulVec (fun _ => 1) 0 =
        2.01 * 1
      rw [correctedCovariance, if_pos (by norm_num)]
      simp [Matrix.mulVec, Matrix.dotProduct, Fin.sum_univ_one, Matrix.add_apply,
        Matrix.smul_apply, Matrix.one_apply, buildCovariance]
      norm_num
  exact ⟨heig,
    corrected_covariance_no_negative_eigenvalues defaultEnvCovConfig 1 onePatch (-1) hlb
      2.01 heig⟩

/-! ## Preservation lemmas for the annual-cycle phases -/

theorem investInMonument_size {σ : Type} (R : Rng σ) (b : Band) (rate : ℝ) (s : σ) :
    (investInMonument R b rate s).2.1.size = b.size := by
  rw [investInMonument]
  split <;> rfl

theorem acquireExotic_size {σ : Type} (R : Rng σ) (b : Band) (cost : ℝ) (s : σ) :
    (acquireExotic R b cost s).2.1.size = b.size := by
  rw [acquireExotic]
  split
  · rfl
  · dsimp only
    split <;> rfl

theorem callObligation_size (b : Band) (partner_id : ℤ) (need : ℝ) :
    (callObligation b partner_id need).2.size = b.size := by
  rw [callObligation]
  rcases obLookup b.obligations partner_id with _ | str
  · rfl
  · simp only
    split <;> rfl

theorem formObligation_size (b : Band) (partner_id : ℤ) (strength : ℝ) :
    (formObligation b partner_id strength).size = b.size := rfl

theorem addAttendingBand_monument (site : AggregationSite) (b : Band) :
    (addAttendingBand site b).monument_level = site.monument_level := by
  rw [addAttendingBand]
  split <;> rfl

/-- The generic band loop carries a per-band property through. -/
theorem bandLoop_forall {σ : Type} (f : Band → σ → Band × σ) (P Q : Band → Prop)
    (hf : ∀ b s, P b → Q (f b s).1) :
    ∀ (l : List Band) (s : σ), (∀ b ∈ l, P b) → ∀ b' ∈ (bandLoop f l s).1, Q b' := by
  intro l
  induction l with
  | nil =>
    intro s _ b' hb'
    simp [bandLoop] at hb'
  | cons b t ih =>
    intro s hl b' hb'
    simp only [bandLoop] at hb'
    rcases List.mem_cons.1 hb' with h | h
    · rw [h]
      exact hf b s (hl b (List.mem_cons_self b t))
    · exact ih _ (fun x hx => hl x (List.mem_cons_of_mem b hx)) b' h

theorem dispersalBandStep_size {σ : Type} (R : Rng σ) (insh : Bool) (mag : ℝ)
    (params : SimulationParameters) (b : Band) (s : σ) :
    (dispersalBandStep R insh mag params b s).1.size = b.size := rfl

theorem strategyBandStep_size {σ : Type} (R : Rng σ) (en : ℝ)
    (params : SimulationParameters) (b : Band) (s : σ) :
    (strategyBandStep R en params b s).1.size = b.size := rfl

theorem aggregationBandStep_size {σ : Type} (R : Rng σ) (insh : Bool) (mag : ℝ)
    (params : SimulationParameters) (b : Band) (site : AggregationSite) (s : σ) :
    (aggregationBandStep R insh mag params b site s).1.size = b.size := by
  rw [aggregationBandStep]
  split
  · simp only
    split
    · split
      · rw [acquireExotic_size, investInMonument_size]
      · split
        · rw [formObligation_size, acquireExotic_size, investInMonument_size]
        · rw [acquireExotic_size, investInMonument_size]
    · rw [acquireExotic_size, investInMonument_size]
  · rfl

theorem mortalityBandStep_size_ge_one {σ : Type} (R : Rng σ)
    (params : SimulationParameters) (b : Band) (s : σ) :
    1 ≤ (mortalityBandStep R params b s).1.size := by
  rw [mortalityBandStep]
  have hsf : ∀ (v sg : ℝ), 1 ≤ (sufferShortfall R b v sg s).2.1.size := by
    intro v sg
    rw [sufferShortfall]
    exact le_max_left _ _
  dsimp only
  split <;> split <;> dsimp only <;>
    first
      | (rw [callObligation_size]; exact hsf _ _)
      | exact hsf _ _

theorem clampBandSize_min (params : SimulationParameters) (b : Band)
    (hmm : params.population.min_band_size ≤ params.population.max_band_size) :
    params.population.min_band_size ≤ (clampBandSize params b).size := by
  rw [clampBandSize]
  split
  · exact le_refl _
  · split
    · exact hmm
    · next h _ => exact le_of_not_lt h

theorem reproductionBandStep_min {σ : Type} (R : Rng σ) (params : SimulationParameters)
    (n_attending : ℕ) (b : Band) (s : σ)
    (hmm : params.population.min_band_size ≤ params.population.max_band_size) :
    params.population.min_band_size ≤ (reproductionBandStep R params n_attending b s).1.size :=
  clampBandSize_min params _ hmm

theorem shortfallUpdate_params {σ : Type} (R : Rng σ) (st : SimState σ) :
    (shortfallUpdate R st).params = st.params := by
  rw [shortfallUpdate]
  split
  · dsimp only
    split <;> rfl
  · dsimp only
    split <;> rfl

theorem shortfallUpdate_bands {σ : Type} (R : Rng σ) (st : SimState σ) :
    (shortfallUpdate R st).bands = st.bands := by
  rw [shortfallUpdate]
  split
  · dsimp only
    split <;> rfl
  · dsimp only
    split <;> rfl

theorem shortfallUpdate_site {σ : Type} (R : Rng σ) (st : SimState σ) :
    (shortfallUpdate R st).site = st.site := by
  rw [shortfallUpdate]
  split
  · dsimp only
    split <;> rfl
  · dsimp only
    split <;> rfl

theorem shortfallUpdate_states {σ : Type} (R : Rng σ) (st : SimState σ) :
    (shortfallUpdate R st).yearly_states = st.yearly_states := by
  rw [shortfallUpdate]
  split
  · dsimp only
    split <;> rfl
  · dsimp only
    split <;> rfl

theorem applyShortfallMortality_params {σ : Type} (R : Rng σ) (st : SimState σ) :
    (applyShortfallMortality R st).params = st.params := by
  rw [applyShortfallMortality]
  split <;> rfl

theorem applyShortfallMortality_site {σ : Type} (R : Rng σ) (st : SimState σ) :
    (applyShortfallMortality R st).site = st.site := by
  rw [applyShortfallMortality]
  split <;> rfl

theorem applyShortfallMortality_states {σ : Type} (R : Rng σ) (st : SimState σ) :
    (applyShortfallMortality R st).yearly_states = st.yearly_states := by
  rw [applyShortfallMortality]
  split <;> rfl

/-- After mortality, every band's size satisfies the property it had
before, or is at least 1 (the mortality floor). -/
theorem applyShortfallMortality_size {σ : Type} (R : Rng σ) (st : SimState σ)
    (hl : ∀ b ∈ st.bands, 0 ≤ b.size) :
    ∀ b' ∈ (applyShortfallMortality R st).bands, 0 ≤ b'.size := by
  rw [applyShortfallMortality]
  split
  · intro b' hb'
    refine bandLoop_forall (mortalityBandStep R st.params) (fun _ => True)
      (fun b => 0 ≤ b.size) (fun b s _ => ?_) st.bands st.rng (fun _ _ => trivial) b' hb'
    exact le_trans (by norm_num) (mortalityBandStep_size_ge_one R st.params b s)
  · exact hl

/-- The parameter set is never mutated by `step`. -/
theorem step_params {σ : Type} (R : Rng σ) (st : SimState σ) :
    (step R st).params = st.params := by
  show (applyShortfallMortality R _).params = st.params
  rw [applyShortfallMortality_params]
  show (shortfallUpdate R st).params = st.params
  rw [shortfallUpdate_params]

/-- The parameter set is never mutated over a whole run. -/
theorem stepN_params {σ : Type} (R : Rng σ) (n : ℕ) (st : SimState σ) :
    (stepN R n st).params = st.params := by
  induction n with
  | zero => rfl
  | succ n ih =>
    show (step R (stepN R n st)).params = st.params
    rw [step_params, ih]

/-- After one `step`, every band's size is at least the configured
minimum: the final band-mutating phase of the year is the reproduction
clamp. -/
theorem step_bands_min_size {σ : Type} (R : Rng σ) (st : SimState σ)
    (hmm : st.params.population.min_band_size ≤ st.params.population.max_band_size) :
    ∀ b' ∈ (step R st).bands, st.params.population.min_band_size ≤ b'.size := by
  intro b' hb'
  have hb2 : b' ∈ (applyReproduction R (applyShortfallMortality R (runAggregationSeason R
      (runStrategyDecisions R (runDispersalSeason R (shortfallUpdate R st)))))).bands := hb'
  rw [applyReproduction] at hb2
  have hparams : (applyShortfallMortality R (runAggregationSeason R
      (runStrategyDecisions R (runDispersalSeason R (shortfallUpdate R st))))).params =
      st.params := by
    rw [applyShortfallMortality_params]
    show (shortfallUpdate R st).params = st.params
    exact shortfallUpdate_params R st
  rw [hparams] at hb2
  rw [reproductionBands] at hb2
  have := bandLoop_forall
    (reproductionBandStep R st.params
      (nAttending (applyShortfallMortality R (runAggregationSeason R
        (runStrategyDecisions R (runDispersalSeason R (shortfallUpdate R st))))).site))
    (fun _ => True) (fun b => st.params.population.min_band_size ≤ b.size)
    (fun b s _ => reproductionBandStep_min R st.params _ b s hmm)
    _ _ (fun _ _ => trivial) b' hb2
  exact this

theorem bandLoop_length {σ : Type} (f : Band → σ → Band × σ) :
    ∀ (l : List Band) (s : σ), (bandLoop f l s).1.length = l.length := by
  intro l
  induction l with
  | nil => intro s; rfl
  | cons b t ih =>
    intro s
    show ((bandLoop f t _).1.length + 1 = t.length + 1)
    rw [ih]

theorem aggregationBands_length {σ : Type} (R : Rng σ) (insh : Bool) (mag : ℝ)
    (params : SimulationParameters) :
    ∀ (l : List Band) (site : AggregationSite) (tc : ℝ) (s : σ),
      (aggregationBands R insh mag params l site tc s).1.length = l.length := by
  intro l
  induction l with
  | nil => intro site tc s; rfl
  | cons b t ih =>
    intro site tc s
    show ((aggregationBands R insh mag params t _ _ _).1.length + 1 = t.length + 1)
    rw [ih]

theorem applyShortfallMortality_bands_length {σ : Type} (R : Rng σ) (st : SimState σ) :
    (applyShortfallMortality R st).bands.length = st.bands.length := by
  rw [applyShortfallMortality]
  split
  · exact bandLoop_length _ _ _
  · rfl

/-- The number of bands is constant across a `step` (bands are never
created or destroyed mid-run). -/
theorem step_bands_length {σ : Type} (R : Rng σ) (st : SimState σ) :
    (step R st).bands.length = st.bands.length := by
  have h5 : (step R st).bands.length = (applyShortfallMortality R (runAggregationSeason R
      (runStrategyDecisions R (runDispersalSeason R
        (shortfallUpdate R st))))).bands.length := bandLoop_length _ _ _
  rw [h5, applyShortfallMortality_bands_length]
  have h4 : (runAggregationSeason R (runStrategyDecisions R (runDispersalSeason R
      (shortfallUpdate R st)))).bands.length = (runStrategyDecisions R (runDispersalSeason R
      (shortfallUpdate R st))).bands.length := aggregationBands_length _ _ _ _ _ _ _ _
  rw [h4]
  have h3 : (runStrategyDecisions R (runDispersalSeason R
      (shortfallUpdate R st))).bands.length = (runDispersalSeason R
      (shortfallUpdate R st)).bands.length := bandLoop_length _ _ _
  rw [h3]
  have h2 : (runDispersalSeason R (shortfallUpdate R st)).bands.length =
      (shortfallUpdate R st).bands.length := bandLoop_length _ _ _
  rw [h2, shortfallUpdate_bands]

/-- `create_bands` creates exactly `n_bands` bands. -/
theorem createBands_length {σ : Type} (R : Rng σ) (n : ℕ) (initial_size : ℤ)
    (region_size : ℝ) (s : σ) :
    (createBands R n initial_size region_size s).1.length = n := by
  rw [createBands]
  induction n with
  | zero => rfl
  | succ n ih =>
    rw [List.range_succ, List.foldl_append]
    simp only [List.foldl_cons, List.foldl_nil, List.length_append, List.length_cons,
      List.length_nil]
    rw [ih]

/-! ## Claim theorems for the run-level properties -/

/-- C7: for every run (with a coherent band-size window, as in the default
configuration) and at the moment each yearly snapshot is recorded — i.e.
in the state after each completed year — every band's size is at least the
configured `min_band_size`, because the reproduction phase's clamp is the
last band mutation before the snapshot. -/
theorem snapshot_band_sizes_at_least_min {σ : Type} (R : Rng σ)
    (p : SimulationParameters) (k : ℕ)
    (hmm : p.population.min_band_size ≤ p.population.max_band_size)
    (hk : 1 ≤ k) :
    ∀ b' ∈ (stepN R k (initSimulation R p)).bands,
      p.population.min_band_size ≤ b'.size := by
  obtain ⟨m, rfl⟩ : ∃ m, k = m + 1 := ⟨k - 1, (Nat.succ_pred_eq_of_pos hk).symm⟩
  intro b' hb'
  have hparams : (stepN R m (initSimulation R p)).params = p :=
    stepN_params R m (initSimulation R p)
  have h := step_bands_min_size R (stepN R m (initSimulation R p))
    (by rw [hparams]; exact hmm) b' hb'
  rw [hparams] at h
  exact h

/-- Witness for C7 at the default parameter set after one year, applied to
the first band of the population. -/
theorem snapshot_band_sizes_at_least_min_witness :
    (default_parameters 0.5 0.35 42).population.min_band_size ≤
      ((stepN dummyRng 1 (initSimulation dummyRng
        (default_parameters 0.5 0.35 42))).bands.headD exampleBand).size := by
  have hlen : (stepN dummyRng 1 (initSimulation dummyRng
      (default_parameters 0.5 0.35 42))).bands.length = 50 := by
    have h1 : (stepN dummyRng 1 (initSimulation dummyRng
        (default_parameters 0.5 0.35 42))).bands.length =
        (initSimulation dummyRng (default_parameters 0.5 0.35 42)).bands.length :=
      step_bands_length dummyRng _
    rw [h1]
    show (createBands dummyRng (default_parameters 0.5 0.35 42).population.n_bands
        (default_parameters 0.5 0.35 42).population.initial_band_size
        (default_parameters 0.5 0.35 42).environment.region_size
        (dummyRng.init (default_parameters 0.5 0.35 42).seed)).1.length = 50
    exact createBands_length dummyRng _ _ _ _
  have hne : (stepN dummyRng 1 (initSimulation dummyRng
      (default_parameters 0.5 0.35 42))).bands ≠ [] := by
    intro h
    rw [h] at hlen
    simp at hlen
  have hmem : (stepN dummyRng 1 (initSimulation dummyRng
      (default_parameters 0.5 0.35 42))).bands.headD exampleBand ∈
      (stepN dummyRng 1 (initSimulation dummyRng (default_parameters 0.5 0.35 42))).bands := by
    obtain ⟨b, t, hbt⟩ : ∃ b t, (stepN dummyRng 1 (initSimulation dummyRng
        (default_parameters 0.5 0.35 42))).bands = b :: t := by
      rcases h : (stepN dummyRng 1 (initSimulation dummyRng
          (default_parameters 0.5 0.35 42))).bands with _ | ⟨b, t⟩
      · exact absurd h hne
      · exact ⟨b, t, rfl⟩
    rw [hbt]
    exact List.mem_cons_self _ _
  exact snapshot_band_sizes_at_least_min dummyRng (default_parameters 0.5 0.35 42) 1
    (by norm_num [default_parameters, defaultPopulation]) (le_refl 1) _ hmem

/-- C6: determinism — two simulation instances constructed with identical
parameter sets (including the seed, which fixes the generator state) and
run for the same number of years produce identical ordered sequences of
yearly snapshots.  All randomness is threaded through the single abstract
generator, so the run is a pure function of the parameters. -/
theorem run_deterministic {σ : Type} (R : Rng σ) (p q : SimulationParameters)
    (n : ℕ) (hpq : p = q) :
    (stepN R n (initSimulation R p)).yearly_states =
      (stepN R n (initSimulation R q)).yearly_states := by
  rw [hpq]

/-- Witness for C6 at the default parameter set. -/
theorem run_deterministic_witness :
    (stepN dummyRng 3 (initSimulation dummyRng (default_parameters 0.5 0.35 42))).yearly_states =
      (stepN dummyRng 3 (initSimulation dummyRng (default_parameters 0.5 0.35 42))).yearly_states :=
  run_deterministic dummyRng (default_parameters 0.5 0.35 42)
    (default_parameters 0.5 0.35 42) 3 rfl

/-! ## Monument-level monotonicity -/

/-- A foldl-invariant principle. -/
theorem foldl_inv {α β : Type} (f : β → α → β) (C : β → Prop)
    (l : List α) (b : β) (hb : C b) (hf : ∀ acc a, C acc → C (f acc a)) :
    C (l.foldl f b) := by
  induction l generalizing b with
  | nil => exact hb
  | cons a t ih => exact ih _ (hf b a hb)

/-- Bands created at simulation start have size at least
`initial_band_size - 5` (the size offset is drawn from `integers(-5, 6)`). -/
theorem createBands_size_ge {σ : Type} (R : Rng σ) (n : ℕ) (initial_size : ℤ)
    (region_size : ℝ) (s : σ) :
    ∀ b ∈ (createBands R n initial_size region_size s).1, initial_size - 5 ≤ b.size := by
  rw [createBands]
  refine foldl_inv _ (fun acc : List Band × σ => ∀ b ∈ acc.1, initial_size - 5 ≤ b.size) _ _
    (by intro b hb; simp at hb) ?_
  intro acc a hacc b hb
  simp only [List.mem_append, List.mem_singleton] at hb
  rcases hb with hb | hb
  · exact hacc b hb
  · rw [hb]
    have := R.integers_ge (-5) 6 (R.random
      (R.uniform 0 region_size (R.uniform 0 region_size acc.2).2).2).2
    show initial_size - 5 ≤ initial_size + _
    omega

theorem investInMonument_nonneg {σ : Type} (R : Rng σ) (b : Band) (rate : ℝ) (s : σ)
    (hrate : 0 ≤ rate) (hsz : 0 ≤ b.size) :
    0 ≤ (investInMonument R b rate s).1 := by
  rw [investInMonument]
  split
  · exact le_refl 0
  · next h =>
    dsimp only
    have hres : (0 : ℝ) ≤ b.resources := le_trans (by norm_num) (not_lt.1 h)
    have hr := R.random_nonneg s
    have hzc : (0 : ℝ) ≤ (b.size : ℝ) := by exact_mod_cast hsz
    have hnoise : (0 : ℝ) ≤ 0.8 + 0.4 * (R.random s).1 := by nlinarith
    exact mul_nonneg (mul_nonneg (mul_nonneg hzc hrate) hres) hnoise

theorem aggregationBandStep_inv_nonneg {σ : Type} (R : Rng σ) (insh : Bool) (mag : ℝ)
    (params : SimulationParameters) (b : Band) (site : AggregationSite) (s : σ)
    (hrate : 0 ≤ params.costs.C_signal) (hsz : 0 ≤ b.size) :
    0 ≤ (aggregationBandStep R insh mag params b site s).2.2.1 := by
  rw [aggregationBandStep]
  split
  · dsimp only
    exact investInMonument_nonneg R _ _ _ hrate hsz
  · exact le_refl 0

theorem aggregationBandStep_site_monument {σ : Type} (R : Rng σ) (insh : Bool) (mag : ℝ)
    (params : SimulationParameters) (b : Band) (site : AggregationSite) (s : σ) :
    (aggregationBandStep R insh mag params b site s).2.1.monument_level =
      site.monument_level := by
  rw [aggregationBandStep]
  split
  · dsimp only
    exact addAttendingBand_monument site _
  · rfl

theorem aggregationBands_site_monument {σ : Type} (R : Rng σ) (insh : Bool) (mag : ℝ)
    (params : SimulationParameters) :
    ∀ (l : List Band) (site : AggregationSite) (tc : ℝ) (s : σ),
      (aggregationBands R insh mag params l site tc s).2.1.monument_level =
        site.monument_level := by
  intro l
  induction l with
  | nil => intro site tc s; rfl
  | cons b t ih =>
    intro site tc s
    show (aggregationBands R insh mag params t _ _ _).2.1.monument_level = _
    rw [ih]
    exact aggregationBandStep_site_monument R insh mag params b site s

theorem aggregationBands_total_mono {σ : Type} (R : Rng σ) (insh : Bool) (mag : ℝ)
    (params : SimulationParameters) (hrate : 0 ≤ params.costs.C_signal) :
    ∀ (l : List Band) (site : AggregationSite) (tc : ℝ) (s : σ),
      (∀ b ∈ l, 0 ≤ b.size) →
      tc ≤ (aggregationBands R insh mag params l site tc s).2.2.1 := by
  intro l
  induction l with
  | nil => intro site tc s _; exact le_refl tc
  | cons b t ih =>
    intro site tc s hl
    have h1 : 0 ≤ (aggregationBandStep R insh mag params b site s).2.2.1 :=
      aggregationBandStep_inv_nonneg R insh mag params b site s hrate
        (hl b (List.mem_cons_self b t))
    have h2 := ih (aggregationBandStep R insh mag params b site s).2.1
      (tc + (aggregationBandStep R insh mag params b site s).2.2.1)
      (aggregationBandStep R insh mag params b site s).2.2.2
      (fun x hx => hl x (List.mem_cons_of_mem b hx))
    show tc ≤ (aggregationBands R insh mag params t _ _ _).2.2.1
    linarith

/-- Sizes are untouched by the aggregation-season loop. -/
theorem aggregationBands_size_pres {σ : Type} (R : Rng σ) (insh : Bool) (mag : ℝ)
    (params : SimulationParameters) (P : ℤ → Prop) :
    ∀ (l : List Band) (site : AggregationSite) (tc : ℝ) (s : σ),
      (∀ b ∈ l, P b.size) →
      ∀ b' ∈ (aggregationBands R insh mag params l site tc s).1, P b'.size := by
  intro l
  induction l with
  | nil =>
    intro site tc s _ b' hb'
    simp [aggregationBands] at hb'
  | cons b t ih =>
    intro site tc s hl b' hb'
    simp only [aggregationBands] at hb'
    rcases List.mem_cons.1 hb' with h | h
    · rw [h, aggregationBandStep_size]
      exact hl b (List.mem_cons_self b t)
    · exact ih _ _ _ (fun x hx => hl x (List.mem_cons_of_mem b hx)) b' h

theorem reproduce_size_ge_one {σ : Type} (R : Rng σ) (b : Band)
    (fitness birth_rate death_rate : ℝ) (s : σ) :
    1 ≤ (reproduce R b fitness birth_rate death_rate s).1.size := by
  rw [reproduce]
  exact le_max_left _ _

theorem clampBandSize_nonneg (params : SimulationParameters) (b : Band)
    (hmin : 0 ≤ params.population.min_band_size)
    (hmax : 0 ≤ params.population.max_band_size) (hb : 0 ≤ b.size) :
    0 ≤ (clampBandSize params b).size := by
  rw [clampBandSize]
  split
  · exact hmin
  · split
    · exact hmax
    · exact hb

theorem reproductionBandStep_nonneg {σ : Type} (R : Rng σ) (params : SimulationParameters)
    (n_attending : ℕ) (b : Band) (s : σ)
    (hmin : 0 ≤ params.population.min_band_size)
    (hmax : 0 ≤ params.population.max_band_size) :
    0 ≤ (reproductionBandStep R params n_attending b s).1.size := by
  refine clampBandSize_nonneg params _ hmin hmax ?_
  exact le_trans (by norm_num) (reproduce_size_ge_one R _ _ _ _ _)

/-- Non-negativity of all band sizes is preserved by one `step`. -/
theorem step_sizes_nonneg {σ : Type} (R : Rng σ) (st : SimState σ)
    (hmin : 0 ≤ st.params.population.min_band_size)
    (hmax : 0 ≤ st.params.population.max_band_size)
    (hszs : ∀ b ∈ st.bands, 0 ≤ b.size) :
    ∀ b' ∈ (step R st).bands, 0 ≤ b'.size := by
  set st1 := shortfallUpdate R st with hst1
  have h1 : ∀ b ∈ st1.bands, 0 ≤ b.size := by
    rw [hst1, shortfallUpdate_bands]
    exact hszs
  have h2 : ∀ b ∈ (runDispersalSeason R st1).bands, 0 ≤ b.size := by
    refine bandLoop_forall _ (fun b => 0 ≤ b.size) (fun b => 0 ≤ b.size) ?_ _ _ h1
    intro b s hb
    exact hb
  have h3 : ∀ b ∈ (runStrategyDecisions R (runDispersalSeason R st1)).bands, 0 ≤ b.size := by
    refine bandLoop_forall _ (fun b => 0 ≤ b.size) (fun b => 0 ≤ b.size) ?_ _ _ h2
    intro b s hb
    exact hb
  have h4 : ∀ b ∈ (runAggregationSeason R
      (runStrategyDecisions R (runDispersalSeason R st1))).bands, 0 ≤ b.size :=
    aggregationBands_size_pres R _ _ _ (fun z => 0 ≤ z) _ _ _ _ h3
  have h5 : ∀ b ∈ (applyShortfallMortality R (runAggregationSeason R
      (runStrategyDecisions R (runDispersalSeason R st1)))).bands, 0 ≤ b.size :=
    applyShortfallMortality_size R _ h4
  have hparams : (applyShortfallMortality R (runAggregationSeason R
      (runStrategyDecisions R (runDispersalSeason R st1)))).params = st.params := by
    rw [applyShortfallMortality_params]
    exact shortfallUpdate_params R st
  intro b' hb'
  have hb2 : b' ∈ (applyReproduction R (applyShortfallMortality R (runAggregationSeason R
      (runStrategyDecisions R (runDispersalSeason R st1))))).bands := hb'
  rw [applyReproduction, reproductionBands] at hb2
  refine bandLoop_forall _ (fun _ => True) (fun b => 0 ≤ b.size)
    (fun b s _ => reproductionBandStep_nonneg R _ _ b s ?_ ?_) _ _ (fun _ _ => trivial) b' hb2
  · rw [hparams]
    exact hmin
  · rw [hparams]
    exact hmax

theorem recordConstruction_monument (site : AggregationSite) (x : ℝ) :
    (recordConstruction site x).monument_level = site.monument_level + x := rfl

theorem resetAnnualState_monument (site : AggregationSite) :
    (resetAnnualState site).monument_level = site.monument_level := rfl

/-- The aggregation season can only raise the monument level. -/
theorem runAggregationSeason_monument {σ : Type} (R : Rng σ) (st : SimState σ)
    (hrate : 0 ≤ st.params.costs.C_signal)
    (hszs : ∀ b ∈ st.bands, 0 ≤ b.size) :
    st.site.monument_level ≤ (runAggregationSeason R st).site.monument_level := by
  have hsite : (runAggregationSeason R st).site.monument_level =
      (aggregationBands R st.in_shortfall st.shortfall_magnitude st.params st.bands
        (resetAnnualState st.site) 0 st.rng).2.1.monument_level +
      (aggregationBands R st.in_shortfall st.shortfall_magnitude st.params st.bands
        (resetAnnualState st.site) 0 st.rng).2.2.1 := rfl
  rw [hsite, aggregationBands_site_monument, resetAnnualState_monument]
  have h2 : (0 : ℝ) ≤ (aggregationBands R st.in_shortfall st.shortfall_magnitude st.params
      st.bands (resetAnnualState st.site) 0 st.rng).2.2.1 :=
    aggregationBands_total_mono R _ _ _ hrate st.bands (resetAnnualState st.site) 0 st.rng hszs
  linarith

/-- The site after a `step` is the site left by the aggregation season. -/
theorem step_site {σ : Type} (R : Rng σ) (st : SimState σ) :
    (step R st).site = (runAggregationSeason R (runStrategyDecisions R
      (runDispersalSeason R (shortfallUpdate R st)))).site :=
  applyShortfallMortality_site R _

/-- A `step` appends exactly one snapshot, whose monument level is the
site's monument level at the end of the step. -/
theorem step_states {σ : Type} (R : Rng σ) (st : SimState σ) :
    (step R st).yearly_states = st.yearly_states ++
      [mkYearlyState (applyReproduction R (applyShortfallMortality R
        (runAggregationSeason R (runStrategyDecisions R
          (runDispersalSeason R (shortfallUpdate R st))))))] := by
  have h1 : (step R st).yearly_states =
      (applyReproduction R (applyShortfallMortality R (runAggregationSeason R
        (runStrategyDecisions R (runDispersalSeason R
          (shortfallUpdate R st)))))).yearly_states ++
      [mkYearlyState (applyReproduction R (applyShortfallMortality R
        (runAggregationSeason R (runStrategyDecisions R
          (runDispersalSeason R (shortfallUpdate R st))))))] := rfl
  rw [h1]
  have h2 : (applyReproduction R (applyShortfallMortality R (runAggregationSeason R
      (runStrategyDecisions R (runDispersalSeason R
        (shortfallUpdate R st)))))).yearly_states = st.yearly_states := by
    show (applyShortfallMortality R _).yearly_states = _
    rw [applyShortfallMortality_states]
    exact shortfallUpdate_states R st
  rw [h2]

/-- The appended snapshot's monument level equals the final site level. -/
theorem step_snapshot_monument {σ : Type} (R : Rng σ) (st : SimState σ) :
    (mkYearlyState (applyReproduction R (applyShortfallMortality R
      (runAggregationSeason R (runStrategyDecisions R
        (runDispersalSeason R (shortfallUpdate R st))))))).monument_level =
      (step R st).site.monument_level := by
  rw [step_site]
  show (applyShortfallMortality R _).site.monument_level = _
  rw [applyShortfallMortality_site]

/-- The site monument level never decreases across a `step`. -/
theorem step_monument_mono {σ : Type} (R : Rng σ) (st : SimState σ)
    (hrate : 0 ≤ st.params.costs.C_signal)
    (hszs : ∀ b ∈ st.bands, 0 ≤ b.size) :
    st.site.monument_level ≤ (step R st).site.monument_level := by
  rw [step_site]
  set st3 := runStrategyDecisions R (runDispersalSeason R (shortfallUpdate R st)) with hst3
  have hparams : st3.params = st.params := shortfallUpdate_params R st
  have hsz3 : ∀ b ∈ st3.bands, 0 ≤ b.size := by
    have h1 : ∀ b ∈ (shortfallUpdate R st).bands, 0 ≤ b.size := by
      rw [shortfallUpdate_bands]
      exact hszs
    have h2 : ∀ b ∈ (runDispersalSeason R (shortfallUpdate R st)).bands, 0 ≤ b.size := by
      refine bandLoop_forall _ (fun b => 0 ≤ b.size) (fun b => 0 ≤ b.size) ?_ _ _ h1
      intro b s hb
      exact hb
    refine bandLoop_forall _ (fun b => 0 ≤ b.size) (fun b => 0 ≤ b.size) ?_ _ _ h2
    intro b s hb
    exact hb
  have hsite3 : st3.site = st.site := shortfallUpdate_site R st
  have := runAggregationSeason_monument R st3 (by rw [hparams]; exact hrate) hsz3
  rw [hsite3] at this
  exact this

/-- One `step` preserves the monument-history invariant: sizes stay
non-negative, every recorded monument level stays below the site's current
level, and the recorded levels form a non-decreasing chain. -/
theorem step_monument_invariant {σ : Type} (R : Rng σ) (st : SimState σ)
    (hcs : 0 ≤ st.params.costs.C_signal)
    (hmin : 0 ≤ st.params.population.min_band_size)
    (hmax : 0 ≤ st.params.population.max_band_size)
    (hszs : ∀ b ∈ st.bands, 0 ≤ b.size)
    (hle : ∀ ys ∈ st.yearly_states, ys.monument_level ≤ st.site.monument_level)
    (hch : List.Chain' (fun x y : ℝ => x ≤ y)
      (st.yearly_states.map YearlyState.monument_level)) :
    (∀ b' ∈ (step R st).bands, 0 ≤ b'.size) ∧
    (∀ ys ∈ (step R st).yearly_states,
      ys.monument_level ≤ (step R st).site.monument_level) ∧
    List.Chain' (fun x y : ℝ => x ≤ y)
      ((step R st).yearly_states.map YearlyState.monument_level) := by
  have hmono := step_monument_mono R st hcs hszs
  have hstates := step_states R st
  have hsnap := step_snapshot_monument R st
  set snap := mkYearlyState (applyReproduction R (applyShortfallMortality R
    (runAggregationSeason R (runStrategyDecisions R
      (runDispersalSeason R (shortfallUpdate R st)))))) with hsnapdef
  refine ⟨step_sizes_nonneg R st hmin hmax hszs, ?_, ?_⟩
  · intro ys hys
    rw [hstates] at hys
    rcases List.mem_append.1 hys with h | h
    · exact le_trans (hle ys h) hmono
    · rw [List.mem_singleton.1 h]
      exact le_of_eq hsnap
  · rw [hstates, List.map_append, List.chain'_append]
    refine ⟨hch, List.chain'_singleton _, ?_⟩
    intro x hx y hy
    have hy' : y = snap.monument_level := by
      have := hy
      simp at this
      exact this.symm
    have hx2 : x ∈ st.yearly_states.map YearlyState.monument_level := by
      obtain ⟨h, hEq⟩ := List.mem_getLast?_eq_getLast hx
      rw [hEq]
      exact List.getLast_mem h
    obtain ⟨ys, hysmem, hysx⟩ := List.mem_map.1 hx2
    rw [hy', hsnap, ← hysx]
    exact le_trans (hle ys hysmem) hmono

/-- The monument-history invariant holds after any number of steps from a
freshly constructed simulation. -/
theorem stepN_monument_invariant {σ : Type} (R : Rng σ) (p : SimulationParameters)
    (hcs : 0 ≤ p.costs.C_signal)
    (hmin : 0 ≤ p.population.min_band_size)
    (hmax : 0 ≤ p.population.max_band_size)
    (hinit : 5 ≤ p.population.initial_band_size) :
    ∀ k : ℕ,
      (∀ b ∈ (stepN R k (initSimulation R p)).bands, 0 ≤ b.size) ∧
      (∀ ys ∈ (stepN R k (initSimulation R p)).yearly_states,
        ys.monument_level ≤ (stepN R k (initSimulation R p)).site.monument_level) ∧
      List.Chain' (fun x y : ℝ => x ≤ y)
        ((stepN R k (initSimulation R p)).yearly_states.map YearlyState.monument_level) := by
  intro k
  induction k with
  | zero =>
    have hys : (stepN R 0 (initSimulation R p)).yearly_states = [] := rfl
    refine ⟨?_, ?_, ?_⟩
    · intro b hb
      have := createBands_size_ge R p.population.n_bands p.population.initial_band_size
        p.environment.region_size (R.init p.seed) b hb
      omega
    · intro ys hys'
      rw [hys] at hys'
      simp at hys'
    · rw [hys]
      exact List.chain'_nil
  | succ k ih =>
    have hp := stepN_params R k (initSimulation R p)
    obtain ⟨ih1, ih2, ih3⟩ := ih
    exact step_monument_invariant R (stepN R k (initSimulation R p))
      (by rw [hp]; exact hcs) (by rw [hp]; exact hmin) (by rw [hp]; exact hmax)
      ih1 ih2 ih3

/-- C3: over a whole run, the monument levels recorded in the ordered
yearly-state sequence are pairwise non-decreasing; in particular, for
every pair of consecutive snapshots the later monument level is at least
the earlier one.  (The hypotheses are the configuration's sanity conditions, satisfied
by the default parameter set: non-negative signalling rate and band-size
bounds, and an initial band size of at least 5.) -/
theorem monument_level_nondecreasing {σ : Type} (R : Rng σ) (p : SimulationParameters)
    (hcs : 0 ≤ p.costs.C_signal)
    (hmin : 0 ≤ p.population.min_band_size)
    (hmax : 0 ≤ p.population.max_band_size)
    (hinit : 5 ≤ p.population.initial_band_size) :
    List.Pairwise (fun x y : ℝ => x ≤ y)
      ((runSimulation R p).yearly_states.map YearlyState.monument_level) :=
  List.chain'_iff_pairwise.1
    ((stepN_monument_invariant R p hcs hmin hmax hinit p.duration).2.2)

/-- Witness for C3 at the default parameter set. -/
theorem monument_level_nondecreasing_witness :
    List.Pairwise (fun x y : ℝ => x ≤ y)
      ((runSimulation dummyRng (default_parameters 0.5 0.35 42)).yearly_states.map
        YearlyState.monument_level) :=
  monument_level_nondecreasing dummyRng (default_parameters 0.5 0.35 42)
    (by norm_num [default_parameters, defaultCosts])
    (by norm_num [default_parameters, defaultPopulation])
    (by norm_num [default_parameters, defaultPopulation])
    (by norm_num [default_parameters, defaultPopulation])

end PovertyPoint
